import Mathlib

/-!
Shallow embedding of the translation core of the sovd2uds-adapter
(SOVD ↔ UDS diagnostic adapter, Rust).  Bytes are modelled as `Nat`
values (< 256 where the u8 range matters, with explicit `% 256` at
the points where the Rust code performs wrapping machine arithmetic).
Fallible Rust functions returning `Result` are modelled with `Except`,
`Option`-returning ones with `Option`.
-/

namespace Sovd2Uds

/-- Error taxonomy, from `src/error.rs` (`enum Sovd2UdsError`); only the
variants reachable from the embedded core are carried. -/
inductive Sovd2UdsError where
  | config (msg : String)
  | udsCommunication (msg : String)
  | translation (msg : String)
  | componentNotFound (id : String)
  | dataItemNotFound (id : String)
  | invalidRequest (msg : String)
  | ffi (msg : String)
  | internal (msg : String)
deriving DecidableEq, Repr

/-! ## UDS codec (`src/models/uds.rs`) -/

/-- `UdsRequest` from `src/models/uds.rs`: `{service_id: u8, data: Vec<u8>}`. -/
structure UdsRequest where
  service_id : Nat
  data : List Nat
deriving DecidableEq, Repr

/-- `UdsRequest::to_bytes`: the SID byte followed by the payload. -/
def UdsRequest.to_bytes (r : UdsRequest) : List Nat :=
  r.service_id :: r.data

/-- `UdsResponse` from `src/models/uds.rs`. -/
structure UdsResponse where
  service_id : Nat
  data : List Nat
  is_positive : Bool
  nrc : Option Nat
deriving DecidableEq, Repr

/-- `UdsResponse::new_positive`. -/
def UdsResponse.new_positive (service_id : Nat) (data : List Nat) : UdsResponse :=
  { service_id := service_id, data := data, is_positive := true, nrc := none }

/-- `UdsResponse::new_negative`. -/
def UdsResponse.new_negative (service_id : Nat) (nrc : Nat) : UdsResponse :=
  { service_id := service_id, data := [], is_positive := false, nrc := some nrc }

/-- `UdsResponse::from_bytes`: empty frame → `None`; first byte `0x7F` →
negative response needing length ≥ 3; otherwise positive response whose
`service_id` is the raw first byte and whose `data` is the rest. -/
def UdsResponse.from_bytes : List Nat → Option UdsResponse
  | [] => none
  | b0 :: rest =>
    if b0 = 0x7F then
      match rest with
      | b1 :: b2 :: _ => some (UdsResponse.new_negative b1 b2)
      | _ => none
    else
      some (UdsResponse.new_positive b0 rest)

/-- `UdsServiceId::positive_response`: `sid + 0x40` (u8 addition; the enum's
discriminants are ≤ 0x87 so no wrap occurs; the `% 256` keeps u8 semantics). -/
def UdsServiceId.positive_response (sid : Nat) : Nat :=
  (sid + 0x40) % 256

/-! ## Translator helpers (`src/translation/mod.rs`) -/

/-- One uppercase hexadecimal digit, as produced by Rust's `{:02X}`
formatting of each nibble (0–9 → '0'–'9', 10–15 → 'A'–'F'). -/
def hexDigit (n : Nat) : Char :=
  if n < 10 then Char.ofNat (48 + n) else Char.ofNat (55 + n)

/-- The local `hex::encode` helper of `src/translation/mod.rs`: each byte is
rendered as two uppercase hex digits (`{:02X}`), joined without separator. -/
def hexEncode (data : List Nat) : String :=
  String.mk (data.foldr (fun b acc => hexDigit (b / 16 % 16) :: hexDigit (b % 16) :: acc) [])

/-- `SovdUdsTranslator::format_dtc`: fewer than 3 bytes → `"UNKNOWN"`;
otherwise the prefix letter from the top two bits of byte 0, then the four
digit fields, each rendered by Rust's `Display` for integers, i.e. in
decimal (`Nat.repr`). -/
def format_dtc (bytes : List Nat) : String :=
  match bytes with
  | b0 :: b1 :: _ :: _ =>
    let pfx : String :=
      match b0 / 64 % 4 with
      | 0 => "P"
      | 1 => "C"
      | 2 => "B"
      | 3 => "U"
      | _ => "X"
    pfx ++ Nat.repr (b0 / 16 % 4) ++ Nat.repr (b0 % 16)
        ++ Nat.repr (b1 / 16 % 16) ++ Nat.repr (b1 % 16)
  | _ => "UNKNOWN"

/-- One parsed DTC record as built by `parse_dtc_data` (the
`serde_json::json!` object `{code, status, description}`). -/
structure DtcRecord where
  code : String
  status : String
  description : String
deriving DecidableEq, Repr

/-- The record-consuming loop of `SovdUdsTranslator::parse_dtc_data`:
starting after the status-availability byte, consume 4-byte records
(3 DTC bytes + 1 status byte) while at least 4 bytes remain; incomplete
trailing bytes are discarded. -/
def parse_dtc_records : List Nat → List DtcRecord
  | b0 :: b1 :: b2 :: st :: rest =>
      { code := format_dtc [b0, b1, b2],
        status := "0x" ++ hexEncode [st],
        description := "Diagnostic trouble code" } :: parse_dtc_records rest
  | _ => []

/-- `SovdUdsTranslator::parse_dtc_data`: a buffer shorter than 1 byte yields
`Ok []`; otherwise the first byte (status availability mask) is skipped and
the 4-byte records are consumed. -/
def parse_dtc_data (data : List Nat) : Except Sovd2UdsError (List DtcRecord) :=
  match data with
  | [] => Except.ok []
  | _ :: rest => Except.ok (parse_dtc_records rest)

/-! ## JSON values (`serde_json::Value`) -/

/-- `serde_json::Number`: a positive (u64) integer, a negative (i64)
integer, or a float.  `as_u64` inspects only the variant, so the float's
payload is irrelevant to the embedded functions and is not carried. -/
inductive JsonNum where
  | posInt (n : Nat)
  | negInt (i : Int)
  | float
deriving DecidableEq, Repr

/-- `serde_json::Number::as_u64`: `Some` exactly on the u64 variant. -/
def JsonNum.as_u64 : JsonNum → Option Nat
  | .posInt n => some n
  | .negInt _ => none
  | .float => none

/-- `serde_json::Value`. -/
inductive Json where
  | null
  | bool (b : Bool)
  | num (n : JsonNum)
  | str (s : String)
  | arr (elems : List Json)
  | obj (fields : List (String × Json))

/-! ## UTF-8 (`String::from_utf8` / `str::as_bytes`) -/

/-- UTF-8 continuation byte: `0x80 ≤ b ≤ 0xBF`. -/
def isUtf8Cont (b : Nat) : Bool := 0x80 ≤ b && b < 0xC0

/-- Admissible range of the second byte of a 3-byte sequence (RFC 3629:
excludes overlong encodings for `0xE0` and surrogates for `0xED`). -/
def utf8SecondOk3 (b c1 : Nat) : Bool :=
  if b = 0xE0 then 0xA0 ≤ c1 && c1 ≤ 0xBF
  else if b = 0xED then 0x80 ≤ c1 && c1 ≤ 0x9F
  else isUtf8Cont c1

/-- Admissible range of the second byte of a 4-byte sequence (RFC 3629:
excludes overlongs for `0xF0` and values above U+10FFFF for `0xF4`). -/
def utf8SecondOk4 (b c1 : Nat) : Bool :=
  if b = 0xF0 then 0x90 ≤ c1 && c1 ≤ 0xBF
  else if b = 0xF4 then 0x80 ≤ c1 && c1 ≤ 0x8F
  else isUtf8Cont c1

/-- Strict UTF-8 decoding of a byte list, as validated by Rust's
`String::from_utf8` (RFC 3629: no overlongs, no surrogates, max U+10FFFF). -/
def utf8Decode : List Nat → Option (List Char)
  | [] => some []
  | b :: rest =>
    if b < 0x80 then
      match utf8Decode rest with
      | some cs => some (Char.ofNat b :: cs)
      | none => none
    else if 0xC2 ≤ b && b ≤ 0xDF then
      match rest with
      | c1 :: rest2 =>
        if isUtf8Cont c1 then
          match utf8Decode rest2 with
          | some cs => some (Char.ofNat ((b - 0xC0) * 64 + (c1 - 0x80)) :: cs)
          | none => none
        else none
      | [] => none
    else if 0xE0 ≤ b && b ≤ 0xEF then
      match rest with
      | c1 :: c2 :: rest2 =>
        if utf8SecondOk3 b c1 && isUtf8Cont c2 then
          match utf8Decode rest2 with
          | some cs =>
            some (Char.ofNat ((b - 0xE0) * 4096 + (c1 - 0x80) * 64 + (c2 - 0x80)) :: cs)
          | none => none
        else none
      | _ => none
    else if 0xF0 ≤ b && b ≤ 0xF4 then
      match rest with
      | c1 :: c2 :: c3 :: rest2 =>
        if utf8SecondOk4 b c1 && isUtf8Cont c2 && isUtf8Cont c3 then
          match utf8Decode rest2 with
          | some cs =>
            some (Char.ofNat ((b - 0xF0) * 262144 + (c1 - 0x80) * 4096 +
              (c2 - 0x80) * 64 + (c3 - 0x80)) :: cs)
          | none => none
        else none
      | _ => none
    else none

/-- `String::from_utf8(data)` as an `Option`: `some` of the decoded string
on valid UTF-8, `none` otherwise. -/
def string_from_utf8 (data : List Nat) : Option String :=
  match utf8Decode data with
  | some cs => some (String.mk cs)
  | none => none

/-- UTF-8 encoding of one scalar value (`char` → bytes). -/
def utf8EncodeChar (c : Char) : List Nat :=
  let n := c.toNat
  if n < 0x80 then [n]
  else if n < 0x800 then [0xC0 + n / 64, 0x80 + n % 64]
  else if n < 0x10000 then [0xE0 + n / 4096, 0x80 + n / 64 % 64, 0x80 + n % 64]
  else [0xF0 + n / 262144, 0x80 + n / 4096 % 64, 0x80 + n / 64 % 64, 0x80 + n % 64]

/-- `str::as_bytes` / `String::into_bytes`: the UTF-8 bytes of a string. -/
def string_as_bytes (s : String) : List Nat :=
  s.data.foldr (fun c acc => utf8EncodeChar c ++ acc) []

/-! ## Value coercion and serialisation (`src/translation/mod.rs`) -/

/-- `SovdUdsTranslator::convert_uds_data_to_sovd`: coerce raw UDS bytes to a
JSON value according to the declared `data_type`.  `"string"`: UTF-8 with
fallback to hex; `"number"`: lengths 1/2/4 → big-endian u8/u16/u32, other
lengths → hex; `"boolean"`: first byte ≠ 0 (`false` on empty); anything
else → hex.  Every branch returns `Ok`. -/
def convert_uds_data_to_sovd (data : List Nat) (dataType : String) :
    Except Sovd2UdsError Json :=
  if dataType = "string" then
    Except.ok (Json.str (match string_from_utf8 data with
      | some s => s
      | none => hexEncode data))
  else if dataType = "number" then
    match data with
    | [a] => Except.ok (Json.num (JsonNum.posInt a))
    | [a, b] => Except.ok (Json.num (JsonNum.posInt (a * 256 + b)))
    | [a, b, c, d] =>
      Except.ok (Json.num (JsonNum.posInt (((a * 256 + b) * 256 + c) * 256 + d)))
    | _ => Except.ok (Json.str (hexEncode data))
  else if dataType = "boolean" then
    Except.ok (Json.bool (match data with
      | [] => false
      | b :: _ => b != 0))
  else
    Except.ok (Json.str (hexEncode data))

/-- `u16::to_be_bytes` over `Nat` (the `% 256` spells out the byte split). -/
def u16_to_be_bytes (n : Nat) : List Nat := [n / 256 % 256, n % 256]

/-- `u32::to_be_bytes` over `Nat`. -/
def u32_to_be_bytes (n : Nat) : List Nat :=
  [n / 16777216 % 256, n / 65536 % 256, n / 256 % 256, n % 256]

/-- Big-endian value of a byte list (what a byte encoding "holds"). -/
def beValue (bytes : List Nat) : Nat := bytes.foldl (fun acc b => acc * 256 + b) 0

/-- `SovdUdsTranslator::serialize_value_to_bytes`: numbers go through
`as_u64` and are emitted in 1, 2 or 4 bytes (`i as u8` / `u16` / `u32`; the
4-byte case truncates modulo 2³²); booleans are one byte; strings their
UTF-8 bytes; everything else is an invalid-request error. -/
def serialize_value_to_bytes (value : Json) : Except Sovd2UdsError (List Nat) :=
  match value with
  | Json.num n =>
    match JsonNum.as_u64 n with
    | some i =>
      if i ≤ 255 then Except.ok [i]
      else if i ≤ 65535 then Except.ok (u16_to_be_bytes i)
      else Except.ok (u32_to_be_bytes (i % 4294967296))
    | none => Except.error (Sovd2UdsError.invalidRequest "Invalid number value")
  | Json.bool b => Except.ok [if b then 1 else 0]
  | Json.str s => Except.ok (string_as_bytes s)
  | _ => Except.error (Sovd2UdsError.invalidRequest "Unsupported value type")

/-! ## Configuration (`src/config/mod.rs`)

Only the sections the core reads (`uds`, `components`, `security`) are
carried; the `HashMap<String, u32>` component map is embedded as an
association list with `List.lookup` as `get`. -/

/-- `UdsConfig`. -/
structure UdsConfig where
  interface : String
  default_address : Nat
  timeout : Nat
  max_retries : Nat
deriving DecidableEq, Repr

/-- `SecurityConfig`. -/
structure SecurityConfig where
  require_security_access : Bool
  security_level : Nat
deriving DecidableEq, Repr

/-- `Config` (restricted to the fields the embedded core touches). -/
structure Config where
  uds : UdsConfig
  components : List (String × Nat)
  security : SecurityConfig
deriving DecidableEq, Repr

/-- `Config::get_component_address`: per-component entry when present,
`.or(Some(uds.default_address))` otherwise. -/
def Config.get_component_address (cfg : Config) (component_id : String) : Option Nat :=
  match cfg.components.lookup component_id with
  | some addr => some addr
  | none => some cfg.uds.default_address

/-- The address-resolution step of `UdsClient::new`
(`get_component_address(..).ok_or_else(ComponentNotFound)`); the subsequent
FFI handle construction is external to the translation core. -/
def UdsClient.new_address (cfg : Config) (component_id : String) :
    Except Sovd2UdsError Nat :=
  match cfg.get_component_address component_id with
  | some addr => Except.ok addr
  | none => Except.error (Sovd2UdsError.componentNotFound component_id)

/-! ## UDS client operations as call traces (`src/uds/client.rs`)

The stateful client is embedded by explicit interaction traces: each
operation returns the list of UDS calls it issued on the transport handle
together with its result.  The handle's responses are supplied as oracle
functions (one per handle method used). -/

/-- One call issued on the transport handle. -/
inductive UdsCall where
  | securityAccess (subfn : Nat) (payload : List Nat)
  | writeDataByIdentifier (did : Nat) (data : List Nat)
  | clearDiagnosticInformation (group : Nat)
  | readDtcInformation (subfn : Nat)
deriving DecidableEq, Repr

/-- `UdsClient::calculate_security_key`: each seed byte XOR `0xAA`. -/
def calculate_security_key (seed : List Nat) : List Nat :=
  seed.map (fun b => Nat.xor b 0xAA)

/-- `UdsClient::perform_security_access`: request the seed with the odd
sub-function `2L − 1` (u8 wrapping arithmetic, hence the `% 256`s); an
empty seed means already unlocked; otherwise derive the key and send it
with the even sub-function `2L`. -/
def perform_security_access (security_level : Nat)
    (sa : Nat → List Nat → Except Sovd2UdsError (List Nat)) :
    List UdsCall × Except Sovd2UdsError Unit :=
  let request_seed_type := (security_level * 2 % 256 + 255) % 256
  match sa request_seed_type [] with
  | Except.error e => ([UdsCall.securityAccess request_seed_type []], Except.error e)
  | Except.ok seed =>
    if seed.isEmpty then
      ([UdsCall.securityAccess request_seed_type []], Except.ok ())
    else
      let key := calculate_security_key seed
      let send_key_type := security_level * 2 % 256
      match sa send_key_type key with
      | Except.error e =>
        ([UdsCall.securityAccess request_seed_type [],
          UdsCall.securityAccess send_key_type key], Except.error e)
      | Except.ok _ =>
        ([UdsCall.securityAccess request_seed_type [],
          UdsCall.securityAccess send_key_type key], Except.ok ())

/-- `UdsClient::write_data_by_identifier`: run the security handshake first
when `require_security_access` is set (aborting on its failure), then issue
the write on the handle. -/
def write_data_by_identifier (cfg : Config)
    (sa : Nat → List Nat → Except Sovd2UdsError (List Nat))
    (wr : Nat → List Nat → Except Sovd2UdsError Unit)
    (did : Nat) (data : List Nat) :
    List UdsCall × Except Sovd2UdsError Unit :=
  if cfg.security.require_security_access then
    match perform_security_access cfg.security.security_level sa with
    | (calls, Except.error e) => (calls, Except.error e)
    | (calls, Except.ok ()) =>
      match wr did data with
      | Except.error e => (calls ++ [UdsCall.writeDataByIdentifier did data], Except.error e)
      | Except.ok () => (calls ++ [UdsCall.writeDataByIdentifier did data], Except.ok ())
  else
    match wr did data with
    | Except.error e => ([UdsCall.writeDataByIdentifier did data], Except.error e)
    | Except.ok () => ([UdsCall.writeDataByIdentifier did data], Except.ok ())

/-! ## DTC management (`SovdUdsTranslator::manage_dtcs`) -/

/-- `DtcManagementResponse` (the `timestamp: Some(Utc::now())` field is
wall-clock time and is not carried in the embedding). -/
structure DtcManagementResponse where
  action : String
  status : String
  results : Option Json
  message : Option String

/-- The `serde_json::json!` object built per DTC record. -/
def DtcRecord.toJson (r : DtcRecord) : Json :=
  Json.obj [("code", Json.str r.code), ("status", Json.str r.status),
            ("description", Json.str r.description)]

/-- `SovdUdsTranslator::manage_dtcs`, dispatching on `request.action` (the
only request field the function reads).  The client is supplied as two
oracles: `clearDiag` for `clear_diagnostic_information` and `readDtc` for
`read_dtc_information`; the trace records the calls issued. -/
def manage_dtcs
    (clearDiag : Nat → Except Sovd2UdsError Unit)
    (readDtc : Nat → Except Sovd2UdsError (List Nat))
    (action : String) :
    List UdsCall × Except Sovd2UdsError DtcManagementResponse :=
  if action = "clear" then
    match clearDiag 0xFFFFFF with
    | Except.error e => ([UdsCall.clearDiagnosticInformation 0xFFFFFF], Except.error e)
    | Except.ok () =>
      ([UdsCall.clearDiagnosticInformation 0xFFFFFF],
        Except.ok { action := "clear", status := "success", results := none,
                    message := some "All DTCs cleared successfully" })
  else if action = "read" then
    match readDtc 0x02 with
    | Except.error e => ([UdsCall.readDtcInformation 0x02], Except.error e)
    | Except.ok dtc_data =>
      match parse_dtc_data dtc_data with
      | Except.error e => ([UdsCall.readDtcInformation 0x02], Except.error e)
      | Except.ok dtcs =>
        ([UdsCall.readDtcInformation 0x02],
          Except.ok { action := "read", status := "success",
                      results := some (Json.obj [("dtcs", Json.arr (dtcs.map DtcRecord.toJson))]),
                      message := some ("Found " ++ Nat.repr dtcs.length ++ " DTCs") })
  else if action = "freeze_frame" then
    match readDtc 0x04 with
    | Except.error e => ([UdsCall.readDtcInformation 0x04], Except.error e)
    | Except.ok ff =>
      ([UdsCall.readDtcInformation 0x04],
        Except.ok { action := "freeze_frame", status := "success",
                    results := some (Json.obj [("freeze_frame_data", Json.str (hexEncode ff))]),
                    message := some "Freeze frame data retrieved" })
  else
    ([], Except.error (Sovd2UdsError.invalidRequest ("Unknown DTC action: " ++ action)))

end Sovd2Uds

namespace Sovd2Uds

/-- C2: for every SID `s ∈ [0x00, 0x7E]` and payload `p`, decoding the
encoded request frame yields `Some` of a positive response with
`service_id = s` and `data = p`. -/
theorem c2_codec_round_trip (s : Nat) (p : List Nat) (hs : s ≤ 0x7E) :
    UdsResponse.from_bytes (UdsRequest.to_bytes { service_id := s, data := p }) =
      some { service_id := s, data := p, is_positive := true, nrc := none } := by
  have hne : s ≠ 0x7F := by omega
  simp [UdsRequest.to_bytes, UdsResponse.from_bytes, UdsResponse.new_positive, hne]

/-- Witness for C2 at SID `0x22` (read-data-by-identifier) with payload
`[0xF1, 0x90]`. -/
theorem c2_codec_round_trip_witness :
    UdsResponse.from_bytes (UdsRequest.to_bytes { service_id := 0x22, data := [0xF1, 0x90] }) =
      some { service_id := 0x22, data := [0xF1, 0x90], is_positive := true, nrc := none } :=
  c2_codec_round_trip 0x22 [0xF1, 0x90] (by decide)

/-- C3 counterexample: the decoder performs no validation against the
request SID.  For request SID `0x22` the expected positive first byte is
`0x22 + 0x40 = 0x62`, yet the frame `[0x50, 0x01]` (first byte `0x50 ≠ 0x62`)
is still surfaced as a successful positive response. -/
theorem c3_no_request_validation_cex :
    UdsResponse.from_bytes [0x50, 0x01] =
        some { service_id := 0x50, data := [0x01], is_positive := true, nrc := none } ∧
      UdsServiceId.positive_response 0x22 = 0x62 ∧ (0x50 : Nat) ≠ 0x62 := by
  refine ⟨?_, by decide, by decide⟩
  simp [UdsResponse.from_bytes, UdsResponse.new_positive]

/-- C3 amended: `UdsResponse::from_bytes` takes no request SID and checks
nothing against `sid + 0x40`: every non-empty frame whose first byte is not
`0x7F` decodes to `Some` positive response carrying the raw first byte,
whatever the outstanding request was. -/
theorem c3_decode_positive_unconditional (b0 : Nat) (rest : List Nat) (h : b0 ≠ 0x7F) :
    UdsResponse.from_bytes (b0 :: rest) =
      some { service_id := b0, data := rest, is_positive := true, nrc := none } := by
  simp [UdsResponse.from_bytes, UdsResponse.new_positive, h]

/-- Witness for the amended C3 at frame `[0x6E, 0xAA]`. -/
theorem c3_decode_positive_unconditional_witness :
    UdsResponse.from_bytes [0x6E, 0xAA] =
      some { service_id := 0x6E, data := [0xAA], is_positive := true, nrc := none } :=
  c3_decode_positive_unconditional 0x6E [0xAA] (by decide)

/-- C1 counterexample: the formatter renders each digit field with Rust's
decimal `Display`, so the nibbles `0xA` and `0xB` of byte 1 = `0xAB` print
as `"10"` and `"11"`: the DTC starting `0x82, 0xAB` formats to the
7-character `"B021011"`, not `"B02AB"`. -/
theorem c1_format_dtc_cex :
    format_dtc [0x82, 0xAB, 0x00] = "B021011" ∧
      format_dtc [0x82, 0xAB, 0x00] ≠ "B02AB" := by
  constructor <;> decide

/-- C1 amended: `0x41, 0x23` does format to `"C0123"` (all nibbles ≤ 9), but
`0x82, 0xAB` formats to `"B021011"`: digit fields are printed in decimal, so
nibbles 10–15 occupy two characters each instead of the hex digits A–F. -/
theorem c1_format_dtc_amended (b2 : Nat) :
    format_dtc [0x41, 0x23, b2] = "C0123" ∧
      format_dtc [0x82, 0xAB, b2] = "B021011" := by
  constructor <;> rfl

/-- Helper: the DTC record loop emits exactly one record per full 4-byte
chunk of its input. -/
theorem parse_dtc_records_length : ∀ xs : List Nat,
    (parse_dtc_records xs).length = xs.length / 4
  | [] => by simp [parse_dtc_records]
  | [_] => by simp [parse_dtc_records]
  | [_, _] => by simp [parse_dtc_records]
  | [_, _, _] => by simp [parse_dtc_records]
  | _ :: _ :: _ :: _ :: rest => by
      have ih := parse_dtc_records_length rest
      simp [parse_dtc_records, ih]
      omega

/-- C4: `parse_dtc_data` always returns `Ok`, with exactly
`⌊(len − 1) / 4⌋` records when the buffer has at least one byte and zero
records otherwise; trailing chunks shorter than 4 bytes yield no record. -/
theorem c4_dtc_parser_totality (data : List Nat) :
    (parse_dtc_data data).toOption.map List.length =
      some (if data.length < 1 then 0 else (data.length - 1) / 4) := by
  match data with
  | [] => rfl
  | _ :: rest =>
    simp [parse_dtc_data, Except.toOption, parse_dtc_records_length rest]

/-- C6 counterexample: `data_type = "boolean"` is "another data_type" than
`"string"`/`"number"`, yet it does not coerce to the hex string — the code
has a dedicated boolean branch returning `Bool` of (first byte ≠ 0). -/
theorem c6_boolean_coercion_cex :
    convert_uds_data_to_sovd [0x01] "boolean" = Except.ok (Json.bool true) ∧
      convert_uds_data_to_sovd [0x01] "boolean" ≠ Except.ok (Json.str (hexEncode [0x01])) := by
  constructor
  · rfl
  · simp [convert_uds_data_to_sovd]

/-- C6 amended: coercion follows the declared `data_type` exactly as
claimed for `"string"` (UTF-8, hex fallback, `[0xFF, 0xFE, 0xFD] → "FFFEFD"`)
and `"number"` (big-endian u8/u16/u32 for lengths 1/2/4, hex otherwise), but
`"boolean"` is a third dedicated case yielding (first byte ≠ 0); only
data types other than these three yield the uppercase hex string. -/
theorem c6_data_coercion_amended :
    (∀ data s, string_from_utf8 data = some s →
        convert_uds_data_to_sovd data "string" = Except.ok (Json.str s)) ∧
    (∀ data, string_from_utf8 data = none →
        convert_uds_data_to_sovd data "string" = Except.ok (Json.str (hexEncode data))) ∧
    (convert_uds_data_to_sovd [0xFF, 0xFE, 0xFD] "string" = Except.ok (Json.str "FFFEFD")) ∧
    (∀ a, convert_uds_data_to_sovd [a] "number" = Except.ok (Json.num (JsonNum.posInt a))) ∧
    (∀ a b, convert_uds_data_to_sovd [a, b] "number" =
        Except.ok (Json.num (JsonNum.posInt (a * 256 + b)))) ∧
    (∀ a b c d, convert_uds_data_to_sovd [a, b, c, d] "number" =
        Except.ok (Json.num (JsonNum.posInt (((a * 256 + b) * 256 + c) * 256 + d)))) ∧
    (∀ data, data.length ≠ 1 → data.length ≠ 2 → data.length ≠ 4 →
        convert_uds_data_to_sovd data "number" = Except.ok (Json.str (hexEncode data))) ∧
    (∀ b rest, convert_uds_data_to_sovd (b :: rest) "boolean" =
        Except.ok (Json.bool (b != 0))) ∧
    (convert_uds_data_to_sovd [] "boolean" = Except.ok (Json.bool false)) ∧
    (∀ data dataType, dataType ≠ "string" → dataType ≠ "number" → dataType ≠ "boolean" →
        convert_uds_data_to_sovd data dataType = Except.ok (Json.str (hexEncode data))) := by
  refine ⟨?_, ?_, by rfl, fun a => rfl, fun a b => rfl, fun a b c d => rfl, ?_, fun b rest => rfl,
    by rfl, ?_⟩
  · intro data s h
    simp [convert_uds_data_to_sovd, h]
  · intro data h
    simp [convert_uds_data_to_sovd, h]
  · intro data h1 h2 h4
    match data with
    | [] => rfl
    | [a] => exact absurd rfl h1
    | [a, b] => exact absurd rfl h2
    | [a, b, c] => rfl
    | [a, b, c, d] => exact absurd rfl h4
    | a :: b :: c :: d :: e :: rest => rfl
  · intro data dataType hs hn hb
    simp [convert_uds_data_to_sovd, hs, hn, hb]

/-- Witness for the amended C6: valid UTF-8 `[0x41, 0x42]` decodes to
`"AB"`; invalid `[0xFF]` falls back to hex; a 3-byte `"number"` and an
unknown data type both yield hex. -/
theorem c6_data_coercion_amended_witness :
    convert_uds_data_to_sovd [0x41, 0x42] "string" = Except.ok (Json.str "AB") ∧
    convert_uds_data_to_sovd [0xFF] "string" = Except.ok (Json.str (hexEncode [0xFF])) ∧
    convert_uds_data_to_sovd [1, 2, 3] "number" = Except.ok (Json.str (hexEncode [1, 2, 3])) ∧
    convert_uds_data_to_sovd [] "opaque-type" = Except.ok (Json.str (hexEncode [])) :=
  ⟨c6_data_coercion_amended.1 [0x41, 0x42] "AB" (by decide),
   c6_data_coercion_amended.2.1 [0xFF] (by decide),
   c6_data_coercion_amended.2.2.2.2.2.2.1 [1, 2, 3] (by decide) (by decide) (by decide),
   c6_data_coercion_amended.2.2.2.2.2.2.2.2.2 [] "opaque-type" (by decide) (by decide)
     (by decide)⟩

/-- C10: `convert_uds_data_to_sovd` is total — every byte buffer and every
data type yield `Ok`; an empty buffer is `false` as `"boolean"` and the
empty string as `"string"`. -/
theorem c10_coercion_total :
    (∀ data dataType, ∃ v, convert_uds_data_to_sovd data dataType = Except.ok v) ∧
    convert_uds_data_to_sovd [] "boolean" = Except.ok (Json.bool false) ∧
    convert_uds_data_to_sovd [] "string" = Except.ok (Json.str "") := by
  refine ⟨fun data dataType => ?_, by rfl, by rfl⟩
  unfold convert_uds_data_to_sovd
  repeat' split
  all_goals exact ⟨_, rfl⟩

/-- C7 counterexample: the 4-byte arm truncates with `i as u32`, so the
number 2³² = 4294967296 serialises to `[0, 0, 0, 0]`, whose big-endian
value is 0, not the full value. -/
theorem c7_u32_truncation_cex :
    serialize_value_to_bytes (Json.num (JsonNum.posInt 4294967296)) = Except.ok [0, 0, 0, 0] ∧
      beValue [0, 0, 0, 0] ≠ 4294967296 := by
  constructor
  · rfl
  · decide

/-- C7 amended: numbers with `as_u64 = Some i` are encoded in 1 byte when
`i ≤ 255`, 2 big-endian bytes holding `i` when `i ≤ 65535`, and otherwise
4 big-endian bytes holding `i mod 2³²` (u32 truncation, not the full
value); booleans are one byte 0/1; strings their UTF-8 bytes; all other
JSON values (null, negative or floating numbers, arrays, objects) produce
an invalid-request error. -/
theorem c7_value_serialisation_amended :
    (∀ i : Nat, i ≤ 255 →
        serialize_value_to_bytes (Json.num (JsonNum.posInt i)) = Except.ok [i]) ∧
    (∀ i : Nat, 255 < i → i ≤ 65535 →
        serialize_value_to_bytes (Json.num (JsonNum.posInt i)) = Except.ok (u16_to_be_bytes i) ∧
        beValue (u16_to_be_bytes i) = i) ∧
    (∀ i : Nat, 65535 < i →
        serialize_value_to_bytes (Json.num (JsonNum.posInt i)) =
          Except.ok (u32_to_be_bytes (i % 4294967296)) ∧
        beValue (u32_to_be_bytes (i % 4294967296)) = i % 4294967296) ∧
    (∀ b : Bool, serialize_value_to_bytes (Json.bool b) = Except.ok [if b then 1 else 0]) ∧
    (∀ s : String, serialize_value_to_bytes (Json.str s) = Except.ok (string_as_bytes s)) ∧
    (serialize_value_to_bytes Json.null =
      Except.error (Sovd2UdsError.invalidRequest "Unsupported value type")) ∧
    (∀ i : Int, serialize_value_to_bytes (Json.num (JsonNum.negInt i)) =
      Except.error (Sovd2UdsError.invalidRequest "Invalid number value")) ∧
    (serialize_value_to_bytes (Json.num JsonNum.float) =
      Except.error (Sovd2UdsError.invalidRequest "Invalid number value")) ∧
    (∀ elems, serialize_value_to_bytes (Json.arr elems) =
      Except.error (Sovd2UdsError.invalidRequest "Unsupported value type")) ∧
    (∀ fields, serialize_value_to_bytes (Json.obj fields) =
      Except.error (Sovd2UdsError.invalidRequest "Unsupported value type")) := by
  refine ⟨?_, ?_, ?_, fun b => rfl, fun s => rfl, by rfl, fun i => rfl, by rfl,
    fun elems => rfl, fun fields => rfl⟩
  · intro i hi
    simp [serialize_value_to_bytes, JsonNum.as_u64, hi]
  · intro i h1 h2
    have hn : ¬ i ≤ 255 := by omega
    constructor
    · simp [serialize_value_to_bytes, JsonNum.as_u64, hn, h2]
    · simp [beValue, u16_to_be_bytes]
      omega
  · intro i h
    have hn1 : ¬ i ≤ 255 := by omega
    have hn2 : ¬ i ≤ 65535 := by omega
    constructor
    · simp [serialize_value_to_bytes, JsonNum.as_u64, hn1, hn2]
    · simp [beValue, u32_to_be_bytes]
      omega

/-- C5: with `require_security_access = true` and security level
`1 ≤ L ≤ 127`, a write issues the seed request (sub-function `2L − 1`,
empty payload) and — whenever the returned seed is non-empty — the key send
(sub-function `2L`, payload = seed bytes each XOR `0xAA`) before the write
call; an empty seed skips the key send and the write proceeds directly. -/
theorem c5_security_gate (cfg : Config)
    (sa : Nat → List Nat → Except Sovd2UdsError (List Nat))
    (wr : Nat → List Nat → Except Sovd2UdsError Unit)
    (did : Nat) (data : List Nat) (seed ack : List Nat)
    (hreq : cfg.security.require_security_access = true)
    (h1 : 1 ≤ cfg.security.security_level) (h2 : cfg.security.security_level ≤ 127)
    (hseed : sa (2 * cfg.security.security_level - 1) [] = Except.ok seed)
    (hkey : seed ≠ [] →
      sa (2 * cfg.security.security_level) (calculate_security_key seed) = Except.ok ack) :
    (write_data_by_identifier cfg sa wr did data).1 =
      UdsCall.securityAccess (2 * cfg.security.security_level - 1) [] ::
        (if seed.isEmpty then [] else
          [UdsCall.securityAccess (2 * cfg.security.security_level)
            (calculate_security_key seed)]) ++
        [UdsCall.writeDataByIdentifier did data] := by
  have hL2 : cfg.security.security_level * 2 % 256 = 2 * cfg.security.security_level := by omega
  have hL1 : (2 * cfg.security.security_level + 255) % 256 =
      2 * cfg.security.security_level - 1 := by omega
  by_cases hs : seed = []
  · subst hs
    cases hw : wr did data <;>
      simp [write_data_by_identifier, perform_security_access, hreq, hL2, hL1, hseed, hw]
  · have hk := hkey hs
    have hie : seed.isEmpty = false := by
      cases seed with
      | nil => exact absurd rfl hs
      | cons a b => rfl
    cases hw : wr did data <;>
      simp [write_data_by_identifier, perform_security_access, hreq, hL2, hL1, hseed, hk, hie, hw]

/-- Witness for C5 at level 1: seed request (sub-function 1) returns
`[0x11]`, the key `[0xBB]` goes out with sub-function 2, then the write. -/
theorem c5_security_gate_witness :
    (write_data_by_identifier
        { uds := { interface := "can0", default_address := 0x7E0, timeout := 5000,
                   max_retries := 3 },
          components := [("engine", 0x7E0)],
          security := { require_security_access := true, security_level := 1 } }
        (fun subfn _ => if subfn = 1 then Except.ok [0x11] else Except.ok [])
        (fun _ _ => Except.ok ()) 0xF190 [0x01]).1 =
      UdsCall.securityAccess 1 [] ::
        (if ([0x11] : List Nat).isEmpty then [] else
          [UdsCall.securityAccess 2 (calculate_security_key [0x11])]) ++
        [UdsCall.writeDataByIdentifier 0xF190 [0x01]] :=
  c5_security_gate _ _ _ _ _ [0x11] [] rfl (by decide) (by decide) rfl (fun _ => rfl)

/-- C8: any DTC action other than `"clear"`, `"read"` and `"freeze_frame"`
yields an invalid-request error and the empty call trace — no
`clear_diagnostic_information` and no `read_dtc_information` is issued. -/
theorem c8_dtc_dispatch_closed
    (clearDiag : Nat → Except Sovd2UdsError Unit)
    (readDtc : Nat → Except Sovd2UdsError (List Nat))
    (action : String)
    (h1 : action ≠ "clear") (h2 : action ≠ "read") (h3 : action ≠ "freeze_frame") :
    manage_dtcs clearDiag readDtc action =
      ([], Except.error (Sovd2UdsError.invalidRequest ("Unknown DTC action: " ++ action))) := by
  simp [manage_dtcs, h1, h2, h3]

/-- Witness for C8 at the unknown action `"reset"`. -/
theorem c8_dtc_dispatch_closed_witness :
    manage_dtcs (fun _ => Except.ok ()) (fun _ => Except.ok []) "reset" =
      ([], Except.error (Sovd2UdsError.invalidRequest ("Unknown DTC action: " ++ "reset"))) :=
  c8_dtc_dispatch_closed _ _ "reset" (by decide) (by decide) (by decide)

/-- C9: `get_component_address` is total — the configured per-component
address when present, the default address otherwise — so the
address-resolution step of `UdsClient::new` never produces the
component-not-found error. -/
theorem c9_component_address_total (cfg : Config) (component_id : String) :
    Config.get_component_address cfg component_id =
        some ((cfg.components.lookup component_id).getD cfg.uds.default_address) ∧
      UdsClient.new_address cfg component_id =
        Except.ok ((cfg.components.lookup component_id).getD cfg.uds.default_address) := by
  unfold UdsClient.new_address Config.get_component_address
  cases cfg.components.lookup component_id <;> simp

/-- Witness for the amended C7 at the numbers 5 (1 byte), 1000 (2 bytes)
and 70000 (4 bytes). -/
theorem c7_value_serialisation_amended_witness :
    serialize_value_to_bytes (Json.num (JsonNum.posInt 5)) = Except.ok [5] ∧
    (serialize_value_to_bytes (Json.num (JsonNum.posInt 1000)) = Except.ok (u16_to_be_bytes 1000) ∧
      beValue (u16_to_be_bytes 1000) = 1000) ∧
    (serialize_value_to_bytes (Json.num (JsonNum.posInt 70000)) =
        Except.ok (u32_to_be_bytes (70000 % 4294967296)) ∧
      beValue (u32_to_be_bytes (70000 % 4294967296)) = 70000 % 4294967296) :=
  ⟨c7_value_serialisation_amended.1 5 (by decide),
   c7_value_serialisation_amended.2.1 1000 (by decide) (by decide),
   c7_value_serialisation_amended.2.2.1 70000 (by decide)⟩

end Sovd2Uds
